import Mathlib

/-!
Shallow embedding of `cmd/rpcfuzz/rpcfuzz.go` from polygon-cli: the
validator strategies, the validator combinator, the test-case record,
the registry built by `setupTests`, and the execution engine of
`RPCFuzzCmd`.

External collaborators (the Go `regexp` package, `encoding/json`
marshalling, the `gojsonschema` library, the RPC client and the cobra
dispatcher) are not part of the repository source; they appear here as
parameters with the contracts the source relies on.
-/

set_option maxRecDepth 4096

/-- A decoded Go `interface{}` value as it appears after JSON decoding,
plus Go `error` values (`verr`) and the nil interface (`vnull`).
Numbers are modelled as integers; no claim depends on float semantics. -/
inductive GoValue where
  | vnull : GoValue
  | vbool : Bool → GoValue
  | vnum : Int → GoValue
  | vstr : String → GoValue
  | varr : List GoValue → GoValue
  | vobj : List (String × GoValue) → GoValue
  | verr : String → GoValue
deriving Repr

/-- Go dynamic type name of a value, as `fmt`'s `%T` verb renders it
for the values that flow through the validators. -/
def goTypeName : GoValue → String
  | .vnull => "<nil>"
  | .vbool _ => "bool"
  | .vnum _ => "float64"
  | .vstr _ => "string"
  | .varr _ => "[]interface \x7b\x7d"
  | .vobj _ => "map[string]interface \x7b\x7d"
  | .verr _ => "*rpc.jsonError"

/-- Rendering of a value by `fmt`'s `%v` verb, as used in the
diagnostics of `ValidateExact`. -/
def govRepr : GoValue → String
  | .vnull => "<nil>"
  | .vbool b => if b then "true" else "false"
  | .vnum n => toString n
  | .vstr s => s
  | .verr e => e
  | .varr xs => "[" ++ String.intercalate " " (xs.attach.map (fun x => govRepr x.1)) ++ "]"
  | .vobj fs => "map[" ++ String.intercalate " " (fs.attach.map (fun f => f.1.1 ++ ":" ++ govRepr f.1.2)) ++ "]"
decreasing_by
all_goals simp_wf
· have h := List.sizeOf_lt_of_mem x.2
  omega
· have h := List.sizeOf_lt_of_mem f.2
  obtain ⟨⟨a, b⟩, hf⟩ := f
  simp_all
  omega

/-- Go interface equality `expected != result` as used by
`ValidateExact`: values of different dynamic types are unequal, values
of the same comparable type compare by value.  (Go panics when both
operands have the same non-comparable dynamic type; the claims restrict
the expected value to comparable primitives, so that case never both
arises and matters.) -/
def goEq : GoValue → GoValue → Bool
  | .vnull, .vnull => true
  | .vbool a, .vbool b => a == b
  | .vnum a, .vnum b => a == b
  | .vstr a, .vstr b => a == b
  | .verr a, .verr b => a == b
  | _, _ => false

/-- A value of a comparable primitive type (bool, string, number). -/
def GoValue.isPrim : GoValue → Bool
  | .vbool _ => true
  | .vstr _ => true
  | .vnum _ => true
  | _ => false

/-- A structured (non-comparable in Go) value: slice or map. -/
def GoValue.isStructured : GoValue → Bool
  | .varr _ => true
  | .vobj _ => true
  | _ => false

/-- Is the value a Go string? -/
def GoValue.isStr : GoValue → Bool
  | .vstr _ => true
  | _ => false

/-- A validator outcome: `none` is success, `some d` is failure with
diagnostic `d` (the Go functions return `error`, nil on success). -/
abbrev Outcome := Option String

/-- A bound validator (Go `func(result interface{}) error`). -/
abbrev ValidatorFn := GoValue → Outcome

/-- A compiled-regex match oracle standing for Go's `regexp` package:
`eng pattern s` is `r.MatchString(s)` for `r := regexp.MustCompile(pattern)`. -/
abbrev RegexEngine := String → String → Bool

/-- `ChainValidator`: applies the validators in order; the first success
short-circuits with overall success; if all fail the chain fails with
the fixed diagnostic, dropping the per-validator diagnostics. -/
def ChainValidator (validators : List ValidatorFn) : ValidatorFn := fun result =>
  match validators with
  | [] => some "All Validation failed"
  | v :: rest =>
    match v result with
    | none => none
    | some _ => ChainValidator rest result

/-- `ValidateExact`: succeeds iff the observed value equals the expected
one under Go interface equality, else fails naming both values. -/
def ValidateExact (expected : GoValue) : ValidatorFn := fun result =>
  if goEq expected result then none
  else some ("Expected " ++ govRepr expected ++ " and got " ++ govRepr result)

/-- `ValidateRegexString`: succeeds iff the observed value is a string
matched by the pattern; wrong-type diagnostic on a non-string, no-match
diagnostic echoing pattern and string otherwise.  `eng` stands for the
compiled regex from Go's `regexp` package. -/
def ValidateRegexString (eng : RegexEngine) (regEx : String) : ValidatorFn := fun result =>
  match result with
  | .vstr resultStr =>
    if eng regEx resultStr then none
    else some ("The regex " ++ regEx ++ " failed to match result " ++ resultStr)
  | other => some ("Invalid result type. Expected string but got " ++ goTypeName other)

/-- `ValidateError`: succeeds iff the observed value is an error whose
message matches the pattern; wrong-type diagnostic otherwise (a nil
interface fails the `result.(error)` assertion and renders as `<nil>`). -/
def ValidateError (eng : RegexEngine) (errorMessageRegex : String) : ValidatorFn := fun result =>
  match result with
  | .verr msg =>
    if eng errorMessageRegex msg then none
    else some ("The regex " ++ errorMessageRegex ++ " failed to match result " ++ msg)
  | other => some ("Invalid result type. Expected error but got " ++ goTypeName other)

/-- `ValidateJSONSchema`: re-serializes the observed value to JSON text
(`marshal`, standing for `json.Marshal`) and validates that text against
the schema (`sval`, standing for `gojsonschema.Validate`, which returns
either an internal error or the list of violation descriptions).
Succeeds iff validation reports no violations; every failure, internal
errors included, surfaces as a diagnostic. -/
def ValidateJSONSchema (marshal : GoValue → Except String String)
    (sval : String → String → Except String (List String))
    (schema : String) : ValidatorFn := fun result =>
  match marshal result with
  | .error e => some ("Unable to marshal result back to json for validation: " ++ e)
  | .ok jsonBytes =>
    match sval schema jsonBytes with
    | .error e => some ("Unable to run json validation: " ++ e)
    | .ok [] => none
    | .ok errs => some ("The json document is not valid: " ++ String.join (errs.map (fun desc => desc ++ "\n")))

/-- `RPCTestGeneric`: the one concrete test-case variant — method name,
positional args, bound validator, and the error-expectation flag
(Go zero value `false` when the literal omits it). -/
structure RPCTestGeneric where
  Method : String
  Args : List GoValue
  Validator : ValidatorFn
  IsError : Bool := false

/-- The outcome of one RPC call: exactly one of an error (`inl`, the
error message) or a decoded result (`inr`). -/
abbrev CallOutcome := Sum String GoValue

/-- The verdict the engine records (logs) for one case. -/
inductive Verdict where
  | success : Verdict
  | callFail : String → Verdict
  | validationFail : String → Verdict
deriving Repr, DecidableEq

/-- One iteration of the loop in `RPCFuzzCmd.RunE`: an unexpected call
error is a call failure skipping validation; otherwise the validator is
applied to the error value when `IsError` (the nil interface when the
call in fact succeeded), else to the decoded result. -/
def runCase (t : RPCTestGeneric) (outcome : CallOutcome) : Verdict :=
  match outcome with
  | .inl e =>
    if !t.IsError then .callFail e
    else
      match t.Validator (GoValue.verr e) with
      | some d => .validationFail d
      | none => .success
  | .inr result =>
    match t.Validator (if t.IsError then GoValue.vnull else result) with
    | some d => .validationFail d
    | none => .success

/-- The whole loop of `RPCFuzzCmd.RunE` over an already-built registry,
each case paired with its call outcome. -/
def engineLoop (cases : List (RPCTestGeneric × CallOutcome)) : List Verdict :=
  cases.map (fun p => runCase p.1 p.2)

/-- Run-scoped configuration resolved before the registry is built:
`testEthAddress.String()`, the contract-address flag, and the three
schema documents from the `rpctypes` package (outside this source file,
opaque strings here). -/
structure Config where
  ethAddress : String
  contractAddress : String
  rpcSchemaEthSyncing : String
  rpcSchemaAccountList : String
  rpcSchemaEthBlock : String

/-- The external collaborators the validators close over: the `regexp`
match oracle, `json.Marshal`, and `gojsonschema.Validate`. -/
structure Env where
  eng : RegexEngine
  marshal : GoValue → Except String String
  sval : String → String → Except String (List String)

def RPCTestNetVersion (env : Env) : RPCTestGeneric :=
  { Method := "net_version", Args := [], Validator := ValidateRegexString env.eng "^\\d*$" }

def RPCTestWeb3ClientVersion (env : Env) : RPCTestGeneric :=
  { Method := "web3_clientVersion", Args := [], Validator := ValidateRegexString env.eng "^[[:print:]]*$" }

def RPCTestWeb3SHA3 (env : Env) : RPCTestGeneric :=
  { Method := "web3_sha3", Args := [GoValue.vstr "0x68656c6c6f20776f726c64"],
    Validator := ValidateRegexString env.eng "0x47173285a8d7341e5e972fc677286384f802f8ef42a5ec5f03bbfa254cb01fad" }

def RPCTestWeb3SHA3Error (env : Env) : RPCTestGeneric :=
  { IsError := true, Method := "web3_sha3", Args := [GoValue.vstr "68656c6c6f20776f726c64"],
    Validator := ValidateError env.eng "cannot unmarshal hex string without 0x prefix" }

def RPCTestNetListening : RPCTestGeneric :=
  { Method := "net_listening", Args := [], Validator := ValidateExact (GoValue.vbool true) }

def RPCTestNetPeerCount (env : Env) : RPCTestGeneric :=
  { Method := "net_peerCount", Args := [], Validator := ValidateRegexString env.eng "^0x[[:xdigit:]]*$" }

def RPCTestEthProtocolVersion (env : Env) : RPCTestGeneric :=
  { IsError := true, Method := "eth_protocolVersion", Args := [],
    Validator := ValidateError env.eng "method eth_protocolVersion does not exist" }

def RPCTestEthSyncing (env : Env) (cfg : Config) : RPCTestGeneric :=
  { Method := "eth_syncing", Args := [],
    Validator := ChainValidator
      [ValidateExact (GoValue.vbool false),
       ValidateJSONSchema env.marshal env.sval cfg.rpcSchemaEthSyncing] }

def RPCTestEthCoinbase (env : Env) : RPCTestGeneric :=
  { Method := "eth_coinbase", Args := [], Validator := ValidateRegexString env.eng "^0x[[:xdigit:]]\x7b40\x7d$" }

def RPCTestEthChainID (env : Env) : RPCTestGeneric :=
  { Method := "eth_chainId", Args := [], Validator := ValidateRegexString env.eng "^0x[[:xdigit:]]\x7b1,\x7d$" }

def RPCTestEthMining : RPCTestGeneric :=
  { Method := "eth_mining", Args := [],
    Validator := ChainValidator
      [ValidateExact (GoValue.vbool true), ValidateExact (GoValue.vbool false)] }

def RPCTestEthHashrate (env : Env) : RPCTestGeneric :=
  { Method := "eth_hashrate", Args := [], Validator := ValidateRegexString env.eng "^0x[[:xdigit:]]\x7b1,\x7d$" }

def RPCTestEthGasPrice (env : Env) : RPCTestGeneric :=
  { Method := "eth_gasPrice", Args := [], Validator := ValidateRegexString env.eng "^0x[[:xdigit:]]\x7b1,\x7d$" }

def RPCTestEthAccounts (env : Env) (cfg : Config) : RPCTestGeneric :=
  { Method := "eth_accounts", Args := [],
    Validator := ValidateJSONSchema env.marshal env.sval cfg.rpcSchemaAccountList }

def RPCTestEthBlockNumber (env : Env) : RPCTestGeneric :=
  { Method := "eth_blockNumber", Args := [], Validator := ValidateRegexString env.eng "^0x[[:xdigit:]]\x7b1,\x7d$" }

def RPCTestEthGetBalanceLatest (env : Env) (cfg : Config) : RPCTestGeneric :=
  { Method := "eth_getBalance", Args := [GoValue.vstr cfg.ethAddress, GoValue.vstr "latest"],
    Validator := ValidateRegexString env.eng "^0x[[:xdigit:]]\x7b1,\x7d$" }

def RPCTestEthGetBalanceEarliest (env : Env) (cfg : Config) : RPCTestGeneric :=
  { Method := "eth_getBalance", Args := [GoValue.vstr cfg.ethAddress, GoValue.vstr "earliest"],
    Validator := ValidateRegexString env.eng "^0x[[:xdigit:]]\x7b1,\x7d$" }

def RPCTestEthGetBalancePending (env : Env) (cfg : Config) : RPCTestGeneric :=
  { Method := "eth_getBalance", Args := [GoValue.vstr cfg.ethAddress, GoValue.vstr "pending"],
    Validator := ValidateRegexString env.eng "^0x[[:xdigit:]]\x7b1,\x7d$" }

def RPCTestEthGetStorageAtLatest (env : Env) (cfg : Config) : RPCTestGeneric :=
  { Method := "eth_getStorageAt", Args := [GoValue.vstr cfg.contractAddress, GoValue.vstr "0x3", GoValue.vstr "latest"],
    Validator := ValidateRegexString env.eng ("^0x000000000000000000000000" ++ (cfg.ethAddress.toLower.drop 2) ++ "$") }

def RPCTestEthGetStorageAtEarliest (env : Env) (cfg : Config) : RPCTestGeneric :=
  { Method := "eth_getStorageAt", Args := [GoValue.vstr cfg.contractAddress, GoValue.vstr "0x3", GoValue.vstr "earliest"],
    Validator := ValidateRegexString env.eng "^0x0\x7b64\x7d" }

def RPCTestEthGetStorageAtPending (env : Env) (cfg : Config) : RPCTestGeneric :=
  { Method := "eth_getStorageAt", Args := [GoValue.vstr cfg.contractAddress, GoValue.vstr "0x3", GoValue.vstr "pending"],
    Validator := ValidateRegexString env.eng ("^0x000000000000000000000000" ++ (cfg.ethAddress.toLower.drop 2) ++ "$") }

def RPCTestEthGetTransactionCountAtLatest (env : Env) (cfg : Config) : RPCTestGeneric :=
  { Method := "eth_getTransactionCount", Args := [GoValue.vstr cfg.ethAddress, GoValue.vstr "latest"],
    Validator := ValidateRegexString env.eng "^0x[[:xdigit:]]\x7b1,\x7d$" }

def RPCTestEthGetTransactionCountAtEarliest (env : Env) (cfg : Config) : RPCTestGeneric :=
  { Method := "eth_getTransactionCount", Args := [GoValue.vstr cfg.ethAddress, GoValue.vstr "earliest"],
    Validator := ValidateRegexString env.eng "^0x0$" }

def RPCTestEthGetTransactionCountAtPending (env : Env) (cfg : Config) : RPCTestGeneric :=
  { Method := "eth_getTransactionCount", Args := [GoValue.vstr cfg.ethAddress, GoValue.vstr "pending"],
    Validator := ValidateRegexString env.eng "^0x[[:xdigit:]]\x7b1,\x7d$" }

def RPCTestEthBlockByNumber (env : Env) (cfg : Config) : RPCTestGeneric :=
  { Method := "eth_getBlockByNumber", Args := [GoValue.vstr "0x0", GoValue.vbool true],
    Validator := ValidateJSONSchema env.marshal env.sval cfg.rpcSchemaEthBlock }

/-- `setupTests`: the 25 sequential `append`s to the package-level
`allTests` slice, modelled as a function of the registry state. -/
def setupTests (env : Env) (cfg : Config) (allTests : List RPCTestGeneric) : List RPCTestGeneric :=
  let allTests := allTests ++ [RPCTestNetVersion env]
  let allTests := allTests ++ [RPCTestWeb3ClientVersion env]
  let allTests := allTests ++ [RPCTestWeb3SHA3 env]
  let allTests := allTests ++ [RPCTestWeb3SHA3Error env]
  let allTests := allTests ++ [RPCTestNetListening]
  let allTests := allTests ++ [RPCTestNetPeerCount env]
  let allTests := allTests ++ [RPCTestEthProtocolVersion env]
  let allTests := allTests ++ [RPCTestEthSyncing env cfg]
  let allTests := allTests ++ [RPCTestEthCoinbase env]
  let allTests := allTests ++ [RPCTestEthChainID env]
  let allTests := allTests ++ [RPCTestEthMining]
  let allTests := allTests ++ [RPCTestEthHashrate env]
  let allTests := allTests ++ [RPCTestEthGasPrice env]
  let allTests := allTests ++ [RPCTestEthAccounts env cfg]
  let allTests := allTests ++ [RPCTestEthBlockNumber env]
  let allTests := allTests ++ [RPCTestEthGetBalanceLatest env cfg]
  let allTests := allTests ++ [RPCTestEthGetBalanceEarliest env cfg]
  let allTests := allTests ++ [RPCTestEthGetBalancePending env cfg]
  let allTests := allTests ++ [RPCTestEthGetStorageAtLatest env cfg]
  let allTests := allTests ++ [RPCTestEthGetStorageAtEarliest env cfg]
  let allTests := allTests ++ [RPCTestEthGetStorageAtPending env cfg]
  let allTests := allTests ++ [RPCTestEthGetTransactionCountAtLatest env cfg]
  let allTests := allTests ++ [RPCTestEthGetTransactionCountAtEarliest env cfg]
  let allTests := allTests ++ [RPCTestEthGetTransactionCountAtPending env cfg]
  let allTests := allTests ++ [RPCTestEthBlockByNumber env cfg]
  allTests

/-- The catalog `setupTests` contributes, in append order. -/
def testCatalog (env : Env) (cfg : Config) : List RPCTestGeneric :=
  [RPCTestNetVersion env, RPCTestWeb3ClientVersion env, RPCTestWeb3SHA3 env,
   RPCTestWeb3SHA3Error env, RPCTestNetListening, RPCTestNetPeerCount env,
   RPCTestEthProtocolVersion env, RPCTestEthSyncing env cfg, RPCTestEthCoinbase env,
   RPCTestEthChainID env, RPCTestEthMining, RPCTestEthHashrate env,
   RPCTestEthGasPrice env, RPCTestEthAccounts env cfg, RPCTestEthBlockNumber env,
   RPCTestEthGetBalanceLatest env cfg, RPCTestEthGetBalanceEarliest env cfg,
   RPCTestEthGetBalancePending env cfg, RPCTestEthGetStorageAtLatest env cfg,
   RPCTestEthGetStorageAtEarliest env cfg, RPCTestEthGetStorageAtPending env cfg,
   RPCTestEthGetTransactionCountAtLatest env cfg, RPCTestEthGetTransactionCountAtEarliest env cfg,
   RPCTestEthGetTransactionCountAtPending env cfg, RPCTestEthBlockByNumber env cfg]

namespace RPCFuzzCmd

/-- `RPCFuzzCmd.RunE`: dial the endpoint (`dial` stands for
`rpc.DialContext`; its failure is returned as the command's error), then
build the registry from an empty slice and run every case, returning nil
(success, carrying the recorded verdicts in this model).  `callRPC`
assigns each case its call outcome (`rpcClient.CallContext`). -/
def RunE (dial : Except String Unit) (env : Env) (cfg : Config)
    (callRPC : RPCTestGeneric → CallOutcome) : Except String (List Verdict) :=
  match dial with
  | .error e => .error e
  | .ok _ => .ok (engineLoop ((setupTests env cfg []).map (fun t => (t, callRPC t))))

/-- `RPCFuzzCmd.Args`: exactly one positional argument, and the private
key must parse (`hexToECDSA` stands for `ethcrypto.HexToECDSA`). -/
def Args (args : List String) (hexToECDSA : Except String Unit) : Except String Unit :=
  if args.length ≠ 1 then .error ("Expected 1 argument, but got " ++ toString args.length)
  else
    match hexToECDSA with
    | .error e => .error e
    | .ok _ => .ok ()

end RPCFuzzCmd

/-- Modelled from the spec: the cobra dispatcher (external library) runs
the command's `Args` check and only on its success invokes `RunE`; the
process's top-level result is the error returned by whichever phase
fails first. -/
def fullRun (args : List String) (hexToECDSA : Except String Unit) (dial : Except String Unit)
    (env : Env) (cfg : Config) (callRPC : RPCTestGeneric → CallOutcome) :
    Except String (List Verdict) :=
  match RPCFuzzCmd.Args args hexToECDSA with
  | .error e => .error e
  | .ok _ => RPCFuzzCmd.RunE dial env cfg callRPC

/-- Is the verdict a call failure ("Method test failed")? -/
def Verdict.isCallFail : Verdict → Bool
  | .callFail _ => true
  | _ => false

/-- C9: `ChainValidator` accepts an empty list of validators, and the
resulting validator fails on every observed value with the generic
"All Validation failed" diagnostic. -/
theorem ChainValidator_empty (x : GoValue) :
    ChainValidator [] x = some "All Validation failed" := rfl

/-- C2: the chain applies its validators in order and succeeds as soon
as one validator succeeds: if every validator before `v` fails on `x`
and `v` succeeds, the chain succeeds, and its outcome is unchanged under
any replacement of the validators after `v`. -/
theorem ChainValidator_first_success (vs1 : List ValidatorFn) (v : ValidatorFn)
    (vs2 vs2' : List ValidatorFn) (x : GoValue)
    (hfail : ∀ u ∈ vs1, u x ≠ none) (hsucc : v x = none) :
    ChainValidator (vs1 ++ v :: vs2) x = none ∧
    ChainValidator (vs1 ++ v :: vs2) x = ChainValidator (vs1 ++ v :: vs2') x := by
  induction vs1 with
  | nil =>
    constructor <;> simp [ChainValidator, hsucc]
  | cons u us ih =>
    have hu := hfail u (List.mem_cons_self u us)
    cases hux : u x with
    | none => exact absurd hux hu
    | some d =>
      have ih' := ih (fun w hw => hfail w (List.mem_cons_of_mem _ hw))
      exact ⟨by simpa [ChainValidator, hux] using ih'.1,
             by simpa [ChainValidator, hux] using ih'.2⟩

/-- Witness for C2 at a concrete chain and observed value. -/
theorem ChainValidator_first_success_witness :
    (∀ u ∈ [ValidateExact (GoValue.vbool false)], u (GoValue.vbool true) ≠ none) ∧
    (ValidateExact (GoValue.vbool true)) (GoValue.vbool true) = none ∧
    (ChainValidator [ValidateExact (GoValue.vbool false), ValidateExact (GoValue.vbool true),
        ValidateExact (GoValue.vbool false)] (GoValue.vbool true) = none ∧
      ChainValidator [ValidateExact (GoValue.vbool false), ValidateExact (GoValue.vbool true),
          ValidateExact (GoValue.vbool false)] (GoValue.vbool true) =
        ChainValidator [ValidateExact (GoValue.vbool false), ValidateExact (GoValue.vbool true)]
          (GoValue.vbool true)) :=
  ⟨by intro u hu; simp at hu; subst hu; simp [ValidateExact, goEq],
   by simp [ValidateExact, goEq],
   ChainValidator_first_success [ValidateExact (GoValue.vbool false)]
     (ValidateExact (GoValue.vbool true)) [ValidateExact (GoValue.vbool false)] []
     (GoValue.vbool true)
     (by intro u hu; simp at hu; subst hu; simp [ValidateExact, goEq])
     (by simp [ValidateExact, goEq])⟩

/-- C3: if every validator of a non-empty chain fails on the observed
value, the chain fails with the fixed diagnostic "All Validation
failed"; the per-validator diagnostics do not appear in the result. -/
theorem ChainValidator_all_fail (vs : List ValidatorFn) (x : GoValue)
    (_hne : vs ≠ []) (hfail : ∀ v ∈ vs, v x ≠ none) :
    ChainValidator vs x = some "All Validation failed" := by
  clear _hne
  induction vs with
  | nil => simp [ChainValidator]
  | cons v rest ih =>
    have hv := hfail v (List.mem_cons_self v rest)
    cases hvx : v x with
    | none => exact absurd hvx hv
    | some d =>
      simpa [ChainValidator, hvx] using ih (fun w hw => hfail w (List.mem_cons_of_mem _ hw))

/-- Witness for C3 at a concrete one-validator chain. -/
theorem ChainValidator_all_fail_witness :
    ([ValidateExact (GoValue.vbool true)] ≠ ([] : List ValidatorFn)) ∧
    (∀ v ∈ [ValidateExact (GoValue.vbool true)], v (GoValue.vbool false) ≠ none) ∧
    ChainValidator [ValidateExact (GoValue.vbool true)] (GoValue.vbool false) =
      some "All Validation failed" :=
  ⟨by simp,
   by intro v hv; simp at hv; subst hv; simp [ValidateExact, goEq],
   ChainValidator_all_fail [ValidateExact (GoValue.vbool true)] (GoValue.vbool false)
     (by simp)
     (by intro v hv; simp at hv; subst hv; simp [ValidateExact, goEq])⟩

/-- C4: for a comparable primitive expected value, `ValidateExact`
succeeds iff the observed value equals it under Go strict (interface)
equality; otherwise it fails with a diagnostic naming both values; a
structured (non-comparable) observed value is never accepted. -/
theorem ValidateExact_spec (expected observed : GoValue)
    (h : expected.isPrim = true) :
    (ValidateExact expected observed = none ↔ goEq expected observed = true) ∧
    (goEq expected observed = false →
      ValidateExact expected observed =
        some ("Expected " ++ govRepr expected ++ " and got " ++ govRepr observed)) ∧
    (observed.isStructured = true → ValidateExact expected observed ≠ none) := by
  have hps : ∀ (e o : GoValue), e.isPrim = true → o.isStructured = true → goEq e o = false := by
    intro e o he ho
    cases e <;> cases o <;> simp_all [GoValue.isPrim, GoValue.isStructured, goEq]
  refine ⟨?_, ?_, ?_⟩
  · cases hg : goEq expected observed <;> simp [ValidateExact, hg]
  · intro hg; simp [ValidateExact, hg]
  · intro ho
    have hg := hps expected observed h ho
    simp [ValidateExact, hg]

/-- Witness for C4: `ValidateExact(true)` against observed `false`. -/
theorem ValidateExact_spec_witness :
    (GoValue.vbool true).isPrim = true ∧
    ((ValidateExact (GoValue.vbool true) (GoValue.vbool false) = none ↔
        goEq (GoValue.vbool true) (GoValue.vbool false) = true) ∧
      (goEq (GoValue.vbool true) (GoValue.vbool false) = false →
        ValidateExact (GoValue.vbool true) (GoValue.vbool false) =
          some ("Expected " ++ govRepr (GoValue.vbool true) ++ " and got " ++
            govRepr (GoValue.vbool false))) ∧
      ((GoValue.vbool false).isStructured = true →
        ValidateExact (GoValue.vbool true) (GoValue.vbool false) ≠ none)) :=
  ⟨by simp [GoValue.isPrim],
   ValidateExact_spec (GoValue.vbool true) (GoValue.vbool false) (by simp [GoValue.isPrim])⟩

/-- C5: `ValidateRegexString` succeeds iff the observed value is a
string matched by the pattern; a non-matching string fails with a
diagnostic echoing pattern and string; a non-string fails with a
wrong-type diagnostic. -/
theorem ValidateRegexString_spec (eng : RegexEngine) (pat : String) (v : GoValue) :
    (ValidateRegexString eng pat v = none ↔
      ∃ s, v = GoValue.vstr s ∧ eng pat s = true) ∧
    (∀ s, v = GoValue.vstr s → eng pat s = false →
      ValidateRegexString eng pat v =
        some ("The regex " ++ pat ++ " failed to match result " ++ s)) ∧
    (v.isStr = false →
      ValidateRegexString eng pat v =
        some ("Invalid result type. Expected string but got " ++ goTypeName v)) := by
  cases v with
  | vstr s =>
    cases he : eng pat s with
    | true => simp [ValidateRegexString, he, GoValue.isStr]
    | false => simp [ValidateRegexString, he, GoValue.isStr]
  | vnull => simp [ValidateRegexString, GoValue.isStr]
  | vbool b => simp [ValidateRegexString, GoValue.isStr]
  | vnum n => simp [ValidateRegexString, GoValue.isStr]
  | varr xs => simp [ValidateRegexString, GoValue.isStr]
  | vobj fs => simp [ValidateRegexString, GoValue.isStr]
  | verr e => simp [ValidateRegexString, GoValue.isStr]

/-- Witness for C5: a pattern that does not match "1a". -/
theorem ValidateRegexString_spec_witness :
    GoValue.vstr "1a" = GoValue.vstr "1a" ∧
    (fun (_ s : String) => s == "0x1a") "^0x[0-9a-f]+$" "1a" = false ∧
    ValidateRegexString (fun _ s => s == "0x1a") "^0x[0-9a-f]+$" (GoValue.vstr "1a") =
      some ("The regex " ++ "^0x[0-9a-f]+$" ++ " failed to match result " ++ "1a") :=
  ⟨rfl, by decide,
   (ValidateRegexString_spec (fun _ s => s == "0x1a") "^0x[0-9a-f]+$"
     (GoValue.vstr "1a")).2.1 "1a" rfl (by decide)⟩

/-- C6: `ValidateJSONSchema` re-serializes the observed value and
validates the text against the schema: it succeeds iff marshalling
succeeds and schema validation reports no violations; with violations
it fails with their concatenated descriptions; a value that cannot be
re-serialized, or an internal validation error, yields a failure
diagnostic rather than an escalated error. -/
theorem ValidateJSONSchema_spec (marshal : GoValue → Except String String)
    (sval : String → String → Except String (List String)) (schema : String) (v : GoValue) :
    (ValidateJSONSchema marshal sval schema v = none ↔
      ∃ txt, marshal v = Except.ok txt ∧ sval schema txt = Except.ok ([] : List String)) ∧
    (∀ txt errs, marshal v = Except.ok txt → sval schema txt = Except.ok errs → errs ≠ [] →
      ValidateJSONSchema marshal sval schema v =
        some ("The json document is not valid: " ++
          String.join (errs.map (fun desc => desc ++ "\n")))) ∧
    (∀ e, marshal v = Except.error e →
      ValidateJSONSchema marshal sval schema v =
        some ("Unable to marshal result back to json for validation: " ++ e)) ∧
    (∀ txt e, marshal v = Except.ok txt → sval schema txt = Except.error e →
      ValidateJSONSchema marshal sval schema v =
        some ("Unable to run json validation: " ++ e)) := by
  cases hm : marshal v with
  | error e =>
    refine ⟨?_, ?_, ?_, ?_⟩
    · simp [ValidateJSONSchema, hm]
    · intro txt errs h1 h2 h3
      simp at h1
    · intro e2 he
      simp only [Except.error.injEq] at he
      subst he
      simp [ValidateJSONSchema, hm]
    · intro txt e2 h1 h2
      simp at h1
  | ok txt =>
    cases hs : sval schema txt with
    | error e2 =>
      refine ⟨?_, ?_, ?_, ?_⟩
      · simp [ValidateJSONSchema, hm, hs]
      · intro txt1 errs h1 h2 h3
        simp only [Except.ok.injEq] at h1
        subst h1
        rw [hs] at h2
        simp at h2
      · intro e3 he
        simp at he
      · intro txt1 e3 h1 h2
        simp only [Except.ok.injEq] at h1
        subst h1
        rw [hs] at h2
        simp only [Except.error.injEq] at h2
        subst h2
        simp [ValidateJSONSchema, hm, hs]
    | ok errs =>
      refine ⟨?_, ?_, ?_, ?_⟩
      · cases errs with
        | nil => simp [ValidateJSONSchema, hm, hs]
        | cons a as => simp [ValidateJSONSchema, hm, hs]
      · intro txt1 errs1 h1 h2 h3
        simp only [Except.ok.injEq] at h1
        subst h1
        rw [hs] at h2
        simp only [Except.ok.injEq] at h2
        subst h2
        cases errs with
        | nil => exact absurd rfl h3
        | cons a as => simp [ValidateJSONSchema, hm, hs]
      · intro e3 he
        simp at he
      · intro txt1 e3 h1 h2
        simp only [Except.ok.injEq] at h1
        subst h1
        rw [hs] at h2
        simp at h2

/-- Witness for C6: one violation is reported. -/
theorem ValidateJSONSchema_spec_witness :
    (fun (_ : GoValue) => Except.ok (ε := String) "\x22false\x22") (GoValue.vstr "false") =
      Except.ok "\x22false\x22" ∧
    (fun (_ _ : String) => Except.ok (ε := String) ["(root): Invalid type"]) "schema"
      "\x22false\x22" = Except.ok ["(root): Invalid type"] ∧
    (["(root): Invalid type"] ≠ ([] : List String)) ∧
    ValidateJSONSchema (fun _ => Except.ok "\x22false\x22")
      (fun _ _ => Except.ok ["(root): Invalid type"]) "schema" (GoValue.vstr "false") =
      some ("The json document is not valid: " ++
        String.join ((["(root): Invalid type"] : List String).map (fun desc => desc ++ "\n"))) :=
  ⟨rfl, rfl, by simp,
   (ValidateJSONSchema_spec (fun _ => Except.ok "\x22false\x22")
     (fun _ _ => Except.ok ["(root): Invalid type"]) "schema" (GoValue.vstr "false")).2.1
     "\x22false\x22" ["(root): Invalid type"] rfl rfl (by simp)⟩

/-- Counterexample to C1 as stated: the `web3_sha3` expect-error case,
when its call returns a normal result, is recorded as a validation
failure carrying the error-regex validator's own wrong-type diagnostic —
so the validator is invoked and the verdict is not a call failure. -/
theorem runCase_expectError_result_counterexample :
    runCase
      { Method := "web3_sha3", Args := [GoValue.vstr "68656c6c6f20776f726c64"],
        Validator := ValidateError (fun _ _ => true)
          "cannot unmarshal hex string without 0x prefix",
        IsError := true }
      (Sum.inr (GoValue.vstr "0x47173285a8d7341e5e972fc677286384f802f8ef42a5ec5f03bbfa254cb01fad")) =
      Verdict.validationFail "Invalid result type. Expected error but got <nil>" ∧
    (runCase
      { Method := "web3_sha3", Args := [GoValue.vstr "68656c6c6f20776f726c64"],
        Validator := ValidateError (fun _ _ => true)
          "cannot unmarshal hex string without 0x prefix",
        IsError := true }
      (Sum.inr (GoValue.vstr "0x47173285a8d7341e5e972fc677286384f802f8ef42a5ec5f03bbfa254cb01fad"))).isCallFail
      = false := by
  constructor <;> decide

/-- C1 amended: for an `expectError=true` case bound to an error-regex
validator, a call error whose message matches the pattern is recorded
as success; a normal result instead makes the engine invoke the
validator on the nil error interface, so the case is recorded as a
validation failure with the validator's wrong-type diagnostic (not as a
call failure). -/
theorem runCase_expectError_routing (eng : RegexEngine) (pat mth : String)
    (args : List GoValue) (e : String) (hmatch : eng pat e = true) :
    runCase { Method := mth, Args := args, Validator := ValidateError eng pat, IsError := true }
      (Sum.inl e) = Verdict.success ∧
    ∀ v : GoValue,
      runCase { Method := mth, Args := args, Validator := ValidateError eng pat, IsError := true }
        (Sum.inr v) =
      Verdict.validationFail ("Invalid result type. Expected error but got " ++
        goTypeName GoValue.vnull) := by
  constructor
  · simp [runCase, ValidateError, hmatch]
  · intro v
    simp [runCase, ValidateError]

/-- Witness for the amended C1 at a concrete case and outcomes. -/
theorem runCase_expectError_routing_witness :
    (fun (_ _ : String) => true) "p" "boom" = true ∧
    runCase
      { Method := "m", Args := [], Validator := ValidateError (fun _ _ => true) "p",
        IsError := true }
      (Sum.inl "boom") = Verdict.success ∧
    runCase
      { Method := "m", Args := [], Validator := ValidateError (fun _ _ => true) "p",
        IsError := true }
      (Sum.inr (GoValue.vbool true)) =
      Verdict.validationFail ("Invalid result type. Expected error but got " ++
        goTypeName GoValue.vnull) :=
  ⟨rfl,
   (runCase_expectError_routing (fun _ _ => true) "p" "m" [] "boom" rfl).1,
   (runCase_expectError_routing (fun _ _ => true) "p" "m" [] "boom" rfl).2
     (GoValue.vbool true)⟩

/-- C7: the engine maps the registry to verdicts sequentially in order:
every case gets exactly one verdict, and replacing any one case (or its
call outcome) leaves the verdicts of all the cases before and after it
unchanged — no outcome halts the run early. -/
theorem engineLoop_independence (l1 l2 : List (RPCTestGeneric × CallOutcome))
    (c c' : RPCTestGeneric × CallOutcome) :
    (engineLoop (l1 ++ c :: l2)).length = l1.length + 1 + l2.length ∧
    engineLoop (l1 ++ c :: l2) = engineLoop l1 ++ runCase c.1 c.2 :: engineLoop l2 ∧
    (engineLoop (l1 ++ c :: l2)).take l1.length =
      (engineLoop (l1 ++ c' :: l2)).take l1.length ∧
    (engineLoop (l1 ++ c :: l2)).drop (l1.length + 1) =
      (engineLoop (l1 ++ c' :: l2)).drop (l1.length + 1) := by
  have hsplit : ∀ d : RPCTestGeneric × CallOutcome,
      engineLoop (l1 ++ d :: l2) = engineLoop l1 ++ runCase d.1 d.2 :: engineLoop l2 := by
    intro d
    simp [engineLoop]
  have hlen : (engineLoop l1).length = l1.length := by simp [engineLoop]
  refine ⟨?_, hsplit c, ?_, ?_⟩
  · simp [engineLoop]
    omega
  · rw [hsplit c, hsplit c', ← hlen, List.take_left, List.take_left]
  · rw [hsplit c, hsplit c']
    have hx : ∀ d : RPCTestGeneric × CallOutcome,
        engineLoop l1 ++ runCase d.1 d.2 :: engineLoop l2 =
          (engineLoop l1 ++ [runCase d.1 d.2]) ++ engineLoop l2 := by
      intro d
      simp
    rw [hx c, hx c']
    have hlen1 : (engineLoop l1 ++ [runCase c.1 c.2]).length = l1.length + 1 := by
      simp [engineLoop]
    have hlen2 : (engineLoop l1 ++ [runCase c'.1 c'.2]).length = l1.length + 1 := by
      simp [engineLoop]
    rw [← hlen1]
    rw [List.drop_left]
    rw [hlen1, ← hlen2, List.drop_left]

/-- C8: the run's top-level result is an error exactly when a
setup-phase step fails (argument count, private-key parsing, endpoint
dial); once setup succeeds the run returns success carrying every
case's verdict, whatever the per-case call outcomes are. -/
theorem fullRun_setup_only_errors (args : List String) (k d : Except String Unit)
    (env : Env) (cfg : Config) (callRPC : RPCTestGeneric → CallOutcome) :
    ((∃ e, fullRun args k d env cfg callRPC = Except.error e) ↔
      (args.length ≠ 1 ∨ (∃ e, k = Except.error e) ∨ (∃ e, d = Except.error e))) ∧
    (args.length = 1 → k = Except.ok () → d = Except.ok () →
      fullRun args k d env cfg callRPC =
        Except.ok (engineLoop ((setupTests env cfg []).map (fun t => (t, callRPC t))))) := by
  by_cases ha : args.length = 1
  · cases k with
    | error e =>
      constructor
      · simp [fullRun, RPCFuzzCmd.Args, ha]
      · intro _ hk
        simp at hk
    | ok u =>
      cases u
      cases d with
      | error e =>
        constructor
        · simp [fullRun, RPCFuzzCmd.Args, RPCFuzzCmd.RunE, ha]
        · intro _ _ hd
          simp at hd
      | ok u2 =>
        cases u2
        constructor
        · simp [fullRun, RPCFuzzCmd.Args, RPCFuzzCmd.RunE, ha]
        · intro _ _ _
          simp [fullRun, RPCFuzzCmd.Args, RPCFuzzCmd.RunE, ha]
  · constructor
    · simp [fullRun, RPCFuzzCmd.Args, ha]
    · intro h1
      exact absurd h1 ha

/-- Witness for C8 at a concrete successful setup. -/
theorem fullRun_setup_only_errors_witness :
    (["http://localhost:8545"] : List String).length = 1 ∧
    (Except.ok () : Except String Unit) = Except.ok () ∧
    fullRun ["http://localhost:8545"] (Except.ok ()) (Except.ok ())
      { eng := fun _ _ => true, marshal := fun _ => Except.ok "null",
        sval := fun _ _ => Except.ok [] }
      { ethAddress := "0x85dA99c8a7C2C95964c8EfD687E95E632Fc533D6",
        contractAddress := "0x6fda56c57b0acadb96ed5624ac500c0429d59429",
        rpcSchemaEthSyncing := "s1", rpcSchemaAccountList := "s2", rpcSchemaEthBlock := "s3" }
      (fun _ => Sum.inl "connection refused") =
      Except.ok (engineLoop
        ((setupTests
          { eng := fun _ _ => true, marshal := fun _ => Except.ok "null",
            sval := fun _ _ => Except.ok [] }
          { ethAddress := "0x85dA99c8a7C2C95964c8EfD687E95E632Fc533D6",
            contractAddress := "0x6fda56c57b0acadb96ed5624ac500c0429d59429",
            rpcSchemaEthSyncing := "s1", rpcSchemaAccountList := "s2", rpcSchemaEthBlock := "s3" }
          []).map (fun t => (t, Sum.inl "connection refused")))) :=
  ⟨rfl, rfl,
   (fullRun_setup_only_errors ["http://localhost:8545"] (Except.ok ()) (Except.ok ())
      { eng := fun _ _ => true, marshal := fun _ => Except.ok "null",
        sval := fun _ _ => Except.ok [] }
      { ethAddress := "0x85dA99c8a7C2C95964c8EfD687E95E632Fc533D6",
        contractAddress := "0x6fda56c57b0acadb96ed5624ac500c0429d59429",
        rpcSchemaEthSyncing := "s1", rpcSchemaAccountList := "s2", rpcSchemaEthBlock := "s3" }
      (fun _ => Sum.inl "connection refused")).2 rfl rfl rfl⟩

/-- C10: `setupTests` appends its 25 cases to the given registry state
without clearing it: one invocation from the empty registry yields
exactly the 25-case catalog, and a second invocation keeps every
existing entry and appends a duplicate of the whole catalog, doubling
the registry. -/
theorem setupTests_append_spec (env : Env) (cfg : Config) (reg : List RPCTestGeneric) :
    setupTests env cfg reg = reg ++ testCatalog env cfg ∧
    (testCatalog env cfg).length = 25 ∧
    (setupTests env cfg reg).length = reg.length + 25 ∧
    setupTests env cfg (setupTests env cfg reg) =
      (reg ++ testCatalog env cfg) ++ testCatalog env cfg ∧
    (setupTests env cfg (setupTests env cfg [])).length = 50 := by
  have h1 : ∀ r : List RPCTestGeneric, setupTests env cfg r = r ++ testCatalog env cfg := by
    intro r
    simp [setupTests, testCatalog]
  have hlen : (testCatalog env cfg).length = 25 := by simp [testCatalog]
  refine ⟨h1 reg, hlen, ?_, ?_, ?_⟩
  · rw [h1]
    simp [hlen]
  · rw [h1, h1]
  · rw [h1, h1]
    simp [hlen]
